import Mathlib

/-!
Shallow embedding of the `perf.data` decoder of the `rust-perfcnt` repository
(`src/linux/parser.rs`, `src/linux/perf_format.rs`, `src/linux/perf_file.rs`).

Bytes are modelled as `Nat` and byte buffers as `List Nat`.  The `nom`
combinators used by the source are modelled by a parser monad
`P α = List Nat → Except PErr (α × List Nat)`:

* `PErr.incomplete` models `nom::Err::Incomplete` (ran off the end of the
  input, streaming combinators such as `le_u64`, `take!`, `take_till!`);
* `PErr.error` models `nom::Err::Error`/`Failure` (e.g. `tag!` mismatch,
  an exhausted `alt!`, a failed `cond_reduce!`);
* `PErr.abort` models a Rust run-time abort: a failed `assert!`, a failed
  `unwrap()`, an out-of-range slice index, or an explicit `panic!`.
-/

inductive PErr where
  | incomplete
  | error
  | abort
deriving DecidableEq, Repr

def P (α : Type) : Type := List Nat → Except PErr (α × List Nat)

def P.bind {α β : Type} (p : P α) (f : α → P β) : P β := fun s =>
  match p s with
  | .ok (a, s₁) => f a s₁
  | .error e => .error e

instance {e a : Type} [DecidableEq e] [DecidableEq a] : DecidableEq (Except e a) :=
  fun x y =>
  match x, y with
  | .ok u, .ok v =>
    if h : u = v then .isTrue (congrArg _ h)
    else .isFalse (fun hc => h (Except.ok.inj hc))
  | .ok _, .error _ => .isFalse (fun hc => Except.noConfusion hc)
  | .error _, .ok _ => .isFalse (fun hc => Except.noConfusion hc)
  | .error u, .error v =>
    if h : u = v then .isTrue (congrArg _ h)
    else .isFalse (fun hc => h (Except.error.inj hc))

instance : Monad P where
  pure a := fun s => .ok (a, s)
  bind := P.bind


/-- `nom::le_u8`: one byte, little endian. -/
def le_u8 : P Nat := fun s =>
  match s with
  | [] => .error .incomplete
  | b :: rest => .ok (b, rest)

/-- `nom::le_u16`. -/
def le_u16 : P Nat := do
  let b0 ← le_u8
  let b1 ← le_u8
  pure (b0 + 256 * b1)

/-- `nom::le_u32`. -/
def le_u32 : P Nat := do
  let h0 ← le_u16
  let h1 ← le_u16
  pure (h0 + 65536 * h1)

/-- `nom::le_u64`. -/
def le_u64 : P Nat := do
  let w0 ← le_u32
  let w1 ← le_u32
  pure (w0 + 4294967296 * w1)

/-- Two's-complement reading of a 32-bit value. -/
def toI32 (n : Nat) : Int :=
  if n < 2147483648 then (n : Int) else (n : Int) - 4294967296

/-- `nom::le_i32`. -/
def le_i32 : P Int := do
  let v ← le_u32
  pure (toI32 v)

/-- `nom::take!(n)`: take exactly `n` bytes. -/
def takeN (n : Nat) : P (List Nat) := fun s =>
  if n ≤ s.length then .ok (s.take n, s.drop n) else .error .incomplete

/-- `nom::tag!`: fixed byte sequence.  In streaming mode a mismatch is an
`Error`; an input that is a proper prefix of the tag is `Incomplete`. -/
def tagP (t : List Nat) : P Unit := fun s =>
  if t.length ≤ s.length then
    if s.take t.length = t then .ok ((), s.drop t.length) else .error .error
  else
    if s = t.take s.length then .error .incomplete else .error .error

/-- `nom::cond!(b, p)`: run `p` only when `b` holds, yielding an `Option`. -/
def condP {α : Type} (b : Bool) (p : P α) : P (Option α) := fun s =>
  match b with
  | true =>
    match p s with
    | .ok (v, s₁) => .ok (some v, s₁)
    | .error e => .error e
  | false => .ok (none, s)

/-- `nom::count!(p, n)`: run `p` exactly `n` times. -/
def countP {α : Type} (p : P α) : Nat → P (List α)
  | 0 => pure []
  | n + 1 => do
    let x ← p
    let xs ← countP p n
    pure (x :: xs)



/-!
Schema model (`src/linux/perf_format.rs`).
-/

/-- `u64::count_ones` (population count), via fuel-bounded binary recursion so
that it reduces by `decide`.  Fuel `n` suffices since `n / 2` halves. -/
def popcountAux : Nat → Nat → Nat
  | 0, _ => 0
  | _ + 1, 0 => 0
  | fuel + 1, n + 1 => (n + 1) % 2 + popcountAux fuel ((n + 1) / 2)

/-- `count_ones` of a natural number. -/
def popcount (n : Nat) : Nat := popcountAux n n

/-- `SampleFormatFlags`: the `sample_type` bitflag set. -/
structure SampleFormatFlags where
  bits : Nat
deriving DecidableEq, Repr

/-- `SampleFormatFlags::from_bits_truncate`: keep only the 19 defined bits. -/
def SampleFormatFlags.from_bits_truncate (v : Nat) : SampleFormatFlags :=
  ⟨v % 524288⟩

def SampleFormatFlags.has_ip (f : SampleFormatFlags) : Bool := f.bits.testBit 0
def SampleFormatFlags.has_tid (f : SampleFormatFlags) : Bool := f.bits.testBit 1
def SampleFormatFlags.has_time (f : SampleFormatFlags) : Bool := f.bits.testBit 2
def SampleFormatFlags.has_addr (f : SampleFormatFlags) : Bool := f.bits.testBit 3
def SampleFormatFlags.has_read (f : SampleFormatFlags) : Bool := f.bits.testBit 4
def SampleFormatFlags.has_callchain (f : SampleFormatFlags) : Bool := f.bits.testBit 5
def SampleFormatFlags.has_sample_id (f : SampleFormatFlags) : Bool := f.bits.testBit 6
def SampleFormatFlags.has_cpu (f : SampleFormatFlags) : Bool := f.bits.testBit 7
def SampleFormatFlags.has_period (f : SampleFormatFlags) : Bool := f.bits.testBit 8
def SampleFormatFlags.has_stream_id (f : SampleFormatFlags) : Bool := f.bits.testBit 9
def SampleFormatFlags.has_raw (f : SampleFormatFlags) : Bool := f.bits.testBit 10
def SampleFormatFlags.has_branch_stack (f : SampleFormatFlags) : Bool := f.bits.testBit 11
def SampleFormatFlags.has_regs_user (f : SampleFormatFlags) : Bool := f.bits.testBit 12
def SampleFormatFlags.has_stack_user (f : SampleFormatFlags) : Bool := f.bits.testBit 13
def SampleFormatFlags.has_weight (f : SampleFormatFlags) : Bool := f.bits.testBit 14
def SampleFormatFlags.has_data_src (f : SampleFormatFlags) : Bool := f.bits.testBit 15
def SampleFormatFlags.has_identifier (f : SampleFormatFlags) : Bool := f.bits.testBit 16
def SampleFormatFlags.has_transaction (f : SampleFormatFlags) : Bool := f.bits.testBit 17
def SampleFormatFlags.has_regs_intr (f : SampleFormatFlags) : Bool := f.bits.testBit 18

/-- `ReadFormatFlags`: the `read_format` bitflag set. -/
structure ReadFormatFlags where
  bits : Nat
deriving DecidableEq, Repr

/-- `ReadFormatFlags::from_bits_truncate`: keep only the 4 defined bits. -/
def ReadFormatFlags.from_bits_truncate (v : Nat) : ReadFormatFlags := ⟨v % 16⟩

def ReadFormatFlags.has_total_time_enabled (f : ReadFormatFlags) : Bool := f.bits.testBit 0
def ReadFormatFlags.has_total_time_running (f : ReadFormatFlags) : Bool := f.bits.testBit 1
def ReadFormatFlags.has_id (f : ReadFormatFlags) : Bool := f.bits.testBit 2
def ReadFormatFlags.has_group (f : ReadFormatFlags) : Bool := f.bits.testBit 3

/-- `EventAttrFlags`: the `settings` bitflag set (bits 0..23 are defined). -/
structure EventAttrFlags where
  bits : Nat
deriving DecidableEq, Repr

/-- `EventAttrFlags::from_bits_truncate`. -/
def EventAttrFlags.from_bits_truncate (v : Nat) : EventAttrFlags := ⟨v % 16777216⟩

structure ThreadId where
  pid : Int
  tid : Int
deriving DecidableEq, Repr

structure Cpu where
  cpu : Nat
  res : Nat
deriving DecidableEq, Repr

inductive EventType where
  | Mmap
  | Lost
  | Comm
  | Exit
  | Throttle
  | Unthrottle
  | Fork
  | Read
  | Sample
  | Mmap2
  | BuildId
  | FinishedRound
  | Unknown (code : Nat)
deriving DecidableEq, Repr

/-- `EventType::new`. -/
def EventType.new (event_type : Nat) : EventType :=
  match event_type with
  | 1 => .Mmap
  | 2 => .Lost
  | 3 => .Comm
  | 4 => .Exit
  | 5 => .Throttle
  | 6 => .Unthrottle
  | 7 => .Fork
  | 8 => .Read
  | 9 => .Sample
  | 10 => .Mmap2
  | 67 => .BuildId
  | 68 => .FinishedRound
  | c => .Unknown c

/-- `EventType::is_unknown`. -/
def EventType.is_unknown : EventType → Bool
  | .Unknown _ => true
  | _ => false

structure EventHeader where
  event_type : EventType
  misc : Nat
  size : Nat
deriving DecidableEq, Repr

structure ForkRecord where
  pid : Nat
  ppid : Nat
  tid : Nat
  ptid : Nat
  time : Nat
deriving DecidableEq, Repr

structure ExitRecord where
  pid : Nat
  ppid : Nat
  tid : Nat
  ptid : Nat
  time : Nat
deriving DecidableEq, Repr

structure ThrottleRecord where
  time : Nat
  id : Nat
  stream_id : Nat
deriving DecidableEq, Repr

structure UnthrottleRecord where
  time : Nat
  id : Nat
  stream_id : Nat
deriving DecidableEq, Repr

/-- `MMAPRecord`; the filename is kept as raw bytes
(`String::from_utf8_unchecked` passes bytes through unchecked). -/
structure MMAPRecord where
  pid : Int
  tid : Nat
  addr : Nat
  len : Nat
  pgoff : Nat
  filename : List Nat
deriving DecidableEq, Repr

structure MMAP2Record where
  ptid : ThreadId
  addr : Nat
  len : Nat
  pgoff : Nat
  maj : Nat
  min : Nat
  ino : Nat
  ino_generation : Nat
  prot : Nat
  flags : Nat
  filename : List Nat
deriving DecidableEq, Repr

structure ReadFormat where
  time_enabled : Option Nat
  time_running : Option Nat
  values : List (Nat × Option Nat)
deriving DecidableEq, Repr

structure BranchEntry where
  from_addr : Nat
  to_addr : Nat
  flags : Nat
deriving DecidableEq, Repr

structure SampleRecord where
  sample_id : Option Nat
  ip : Option Nat
  ptid : Option ThreadId
  time : Option Nat
  addr : Option Nat
  id : Option Nat
  stream_id : Option Nat
  cpu : Option Cpu
  period : Option Nat
  v : Option ReadFormat
  ips : Option (List Nat)
  raw : Option (List Nat)
  lbr : Option (List BranchEntry)
  abi_user : Option Nat
  regs_user : Option (List Nat)
  user_stack : Option (List Nat)
  dyn_size : Option Nat
  weight : Option Nat
  data_src : Option Nat
  transaction : Option Nat
  abi : Option Nat
  regs_intr : Option (List Nat)
deriving DecidableEq, Repr

structure CommRecord where
  ptid : ThreadId
  comm : List Nat
deriving DecidableEq, Repr

structure LostRecord where
deriving DecidableEq, Repr

structure BuildIdRecord where
  pid : Int
  build_id : List Nat
  filename : List Nat
deriving DecidableEq, Repr

inductive EventData where
  | MMAP (r : MMAPRecord)
  | Lost (r : LostRecord)
  | Comm (r : CommRecord)
  | Exit (r : ExitRecord)
  | Throttle (r : ThrottleRecord)
  | Unthrottle (r : UnthrottleRecord)
  | Fork (r : ForkRecord)
  | Sample (r : SampleRecord)
  | MMAP2 (r : MMAP2Record)
  | BuildId (r : BuildIdRecord)
  | None
deriving DecidableEq, Repr

structure Event where
  header : EventHeader
  data : EventData
deriving DecidableEq, Repr

structure EventAttr where
  attr_type : Nat
  size : Nat
  config : Nat
  sample_period_freq : Nat
  sample_type : SampleFormatFlags
  read_format : ReadFormatFlags
  settings : EventAttrFlags
  wakeup_events_watermark : Nat
  bp_type : Nat
  config1_or_bp_addr : Nat
  config2_or_bp_len : Nat
  branch_sample_type : Nat
  sample_regs_user : Nat
  sample_stack_user : Nat
  clock_id : Int
  sample_regs_intr : Nat
  aux_watermark : Nat
  reserved : Nat
deriving DecidableEq, Repr

inductive HeaderFlag where
  | NrCpus
  | Arch
  | Version
  | OsRelease
  | Hostname
  | BuildId
  | TracingData
  | BranchStack
  | NumaTopology
  | CpuTopology
  | EventDesc
  | CmdLine
  | TotalMem
  | CpuId
  | CpuDesc
  | GroupDesc
  | PmuMappings
deriving DecidableEq, Repr

structure HeaderFlags where
  nrcpus : Bool
  arch : Bool
  version : Bool
  osrelease : Bool
  hostname : Bool
  build_id : Bool
  tracing_data : Bool
  branch_stack : Bool
  numa_topology : Bool
  cpu_topology : Bool
  event_desc : Bool
  cmdline : Bool
  total_mem : Bool
  cpuid : Bool
  cpudesc : Bool
  group_desc : Bool
  pmu_mappings : Bool
deriving DecidableEq, Repr

/-- `HeaderFlags::collect`: the set flags, pushed in the on-disk section
order. -/
def HeaderFlags.collect (f : HeaderFlags) : List HeaderFlag :=
  cond f.tracing_data [.TracingData] [] ++
  cond f.build_id [.BuildId] [] ++
  cond f.hostname [.Hostname] [] ++
  cond f.osrelease [.OsRelease] [] ++
  cond f.version [.Version] [] ++
  cond f.arch [.Arch] [] ++
  cond f.nrcpus [.NrCpus] [] ++
  cond f.cpudesc [.CpuDesc] [] ++
  cond f.cpuid [.CpuId] [] ++
  cond f.total_mem [.TotalMem] [] ++
  cond f.cmdline [.CmdLine] [] ++
  cond f.event_desc [.EventDesc] [] ++
  cond f.cpu_topology [.CpuTopology] [] ++
  cond f.numa_topology [.NumaTopology] [] ++
  cond f.branch_stack [.BranchStack] [] ++
  cond f.pmu_mappings [.PmuMappings] [] ++
  cond f.group_desc [.GroupDesc] []

/-- Whether a given named flag is set. -/
def HeaderFlags.hasFlag (f : HeaderFlags) : HeaderFlag → Bool
  | .NrCpus => f.nrcpus
  | .Arch => f.arch
  | .Version => f.version
  | .OsRelease => f.osrelease
  | .Hostname => f.hostname
  | .BuildId => f.build_id
  | .TracingData => f.tracing_data
  | .BranchStack => f.branch_stack
  | .NumaTopology => f.numa_topology
  | .CpuTopology => f.cpu_topology
  | .EventDesc => f.event_desc
  | .CmdLine => f.cmdline
  | .TotalMem => f.total_mem
  | .CpuId => f.cpuid
  | .CpuDesc => f.cpudesc
  | .GroupDesc => f.group_desc
  | .PmuMappings => f.pmu_mappings

/-- Population count of the 17 named feature-flag bits of the header flag
word. -/
def popcountFlags (f : HeaderFlags) : Nat :=
  f.tracing_data.toNat + f.build_id.toNat + f.hostname.toNat +
  f.osrelease.toNat + f.version.toNat + f.arch.toNat + f.nrcpus.toNat +
  f.cpudesc.toNat + f.cpuid.toNat + f.total_mem.toNat + f.cmdline.toNat +
  f.event_desc.toNat + f.cpu_topology.toNat + f.numa_topology.toNat +
  f.branch_stack.toNat + f.pmu_mappings.toNat + f.group_desc.toNat

/-- The canonical feature-flag order of the claim and the spec (§6):
also the on-disk order of the feature sections. -/
def canonicalFlagOrder : List HeaderFlag :=
  [.TracingData, .BuildId, .Hostname, .OsRelease, .Version, .Arch, .NrCpus,
   .CpuDesc, .CpuId, .TotalMem, .CmdLine, .EventDesc, .CpuTopology,
   .NumaTopology, .BranchStack, .PmuMappings, .GroupDesc]

structure PerfFileSection where
  offset : Nat
  size : Nat
deriving DecidableEq, Repr

/-- `PerfFileSection::start`. -/
def PerfFileSection.start (s : PerfFileSection) : Nat := s.offset

/-- `PerfFileSection::end` (renamed: `end` is reserved in Lean). -/
def PerfFileSection.stop (s : PerfFileSection) : Nat := s.offset + s.size

structure PerfFileHeader where
  size : Nat
  attr_size : Nat
  attrs : PerfFileSection
  data : PerfFileSection
  event_types : PerfFileSection
  flags : HeaderFlags
deriving DecidableEq, Repr

/-!
Record parsers (`src/linux/parser.rs`).
-/

/-- `is_nul_byte`. -/
def is_nul_byte (c : Nat) : Bool := c == 0

/-- `parse_c_string`: `take_till!(is_nul_byte)`.  The streaming `take_till!`
stops at (and does not consume) the first NUL; with no NUL in the input it
asks for more input (`Incomplete`). -/
def parse_c_string : P (List Nat) := fun s =>
  if s.any is_nul_byte then
    .ok (s.takeWhile (fun c => !is_nul_byte c), s.dropWhile (fun c => !is_nul_byte c))
  else .error .incomplete

/-- `parse_vec_u64`: u64 length followed by that many u64s. -/
def parse_vec_u64 : P (List Nat) := do
  let len ← le_u64
  let vec ← countP le_u64 len
  pure vec

/-- `parse_vec_u32_u8`: u32 length followed by that many bytes. -/
def parse_vec_u32_u8 : P (List Nat) := do
  let len ← le_u32
  let vec ← countP le_u8 len
  pure vec

/-- `parse_vec_u64_variable`. -/
def parse_vec_u64_variable (count : Nat) : P (List Nat) := countP le_u64 count

/-- `parse_vec_u8_variable`. -/
def parse_vec_u8_variable (count : Nat) : P (List Nat) := countP le_u8 count

/-- `no_event`. -/
def no_event : P EventData := fun s => .ok (.None, s)

/-- `parse_thread_id`. -/
def parse_thread_id : P ThreadId := do
  let pid ← le_i32
  let tid ← le_i32
  pure { pid := pid, tid := tid }

/-- `parse_cpu`. -/
def parse_cpu : P Cpu := do
  let cpu ← le_u32
  let res ← le_u32
  pure { cpu := cpu, res := res }

/-- `parse_fork_record`. -/
def parse_fork_record : P ForkRecord := do
  let pid ← le_u32
  let ppid ← le_u32
  let tid ← le_u32
  let ptid ← le_u32
  let time ← le_u64
  pure { pid := pid, ppid := ppid, tid := tid, ptid := ptid, time := time }

/-- `parse_exit_record`. -/
def parse_exit_record : P ExitRecord := do
  let pid ← le_u32
  let ppid ← le_u32
  let tid ← le_u32
  let ptid ← le_u32
  let time ← le_u64
  pure { pid := pid, ppid := ppid, tid := tid, ptid := ptid, time := time }

/-- `parse_throttle_record`. -/
def parse_throttle_record : P ThrottleRecord := do
  let time ← le_u64
  let id ← le_u64
  let stream_id ← le_u64
  pure { time := time, id := id, stream_id := stream_id }

/-- `parse_unthrottle_record`. -/
def parse_unthrottle_record : P UnthrottleRecord := do
  let time ← le_u64
  let id ← le_u64
  let stream_id ← le_u64
  pure { time := time, id := id, stream_id := stream_id }

/-- `parse_event_header`. -/
def parse_event_header : P EventHeader := do
  let event_type ← le_u32
  let misc ← le_u16
  let size ← le_u16
  pure { event_type := EventType.new event_type, misc := misc, size := size }

/-- `parse_mmap_record`. -/
def parse_mmap_record : P MMAPRecord := do
  let pid ← le_i32
  let tid ← le_u32
  let addr ← le_u64
  let len ← le_u64
  let pgoff ← le_u64
  let filename ← parse_c_string
  pure { pid := pid, tid := tid, addr := addr, len := len, pgoff := pgoff,
         filename := filename }

/-- `parse_mmap2_record`. -/
def parse_mmap2_record : P MMAP2Record := do
  let ptid ← parse_thread_id
  let addr ← le_u64
  let len ← le_u64
  let pgoff ← le_u64
  let maj ← le_u32
  let min ← le_u32
  let ino ← le_u64
  let ino_generation ← le_u64
  let prot ← le_u32
  let flags ← le_u32
  let filename ← parse_c_string
  pure { ptid := ptid, addr := addr, len := len, pgoff := pgoff, maj := maj,
         min := min, ino := ino, ino_generation := ino_generation,
         prot := prot, flags := flags, filename := filename }

/-- `parse_read_value`. -/
def parse_read_value (flags : ReadFormatFlags) : P (Nat × Option Nat) := do
  let value ← le_u64
  let id ← condP flags.has_id le_u64
  pure (value, id)

/-- `parse_read_format`. -/
def parse_read_format (flags : ReadFormatFlags) : P ReadFormat :=
  if flags.has_group then do
    let nr ← le_u64
    let time_enabled ← condP flags.has_total_time_enabled le_u64
    let time_running ← condP flags.has_total_time_running le_u64
    let values ← countP (parse_read_value flags) nr
    pure { time_enabled := time_enabled, time_running := time_running,
           values := values }
  else do
    let value ← le_u64
    let time_enabled ← condP flags.has_total_time_enabled le_u64
    let time_running ← condP flags.has_total_time_running le_u64
    let id ← condP flags.has_id le_u64
    pure { time_enabled := time_enabled, time_running := time_running,
           values := [(value, id)] }

/-- `parse_branch_entry`. -/
def parse_branch_entry : P BranchEntry := do
  let from_addr ← le_u64
  let to_addr ← le_u64
  let flags ← le_u64
  pure { from_addr := from_addr, to_addr := to_addr, flags := flags }

/-- `parse_branch_entries`.  The source opens with
`assert!(flags.has_branch_stack() && flags.has_regs_user())`, which aborts
the program whenever `REGS_USER` (or `BRANCH_STACK`) is not set. -/
def parse_branch_entries (flags : SampleFormatFlags) : P (List BranchEntry) :=
  fun s =>
    if flags.has_branch_stack && flags.has_regs_user then
      (do
        let bnr ← le_u64
        let entries ← countP parse_branch_entry bnr
        pure entries) s
    else .error .abort

/-- `parse_sample_record`.  `user_stack_len.unwrap()` in the source is guarded
by short-circuiting on `has_stack_user`, under which the option is `some`;
`Option.getD` is therefore an exact model of those two `unwrap()` sites. -/
def parse_sample_record (attr : EventAttr) : P SampleRecord :=
  let flags := attr.sample_type
  let regcnt_user := popcount attr.sample_regs_user
  let regcnt_intr := popcount attr.sample_regs_intr
  do
  let sample_id ← condP flags.has_identifier le_u64
  let ip ← condP flags.has_ip le_u64
  let ptid ← condP flags.has_tid parse_thread_id
  let time ← condP flags.has_time le_u64
  let addr ← condP flags.has_addr le_u64
  let id ← condP flags.has_sample_id le_u64
  let stream_id ← condP flags.has_stream_id le_u64
  let cpu ← condP flags.has_cpu parse_cpu
  let period ← condP flags.has_period le_u64
  let v ← condP flags.has_read (parse_read_format attr.read_format)
  let ips ← condP flags.has_callchain parse_vec_u64
  let raw ← condP flags.has_raw parse_vec_u32_u8
  let lbr ← condP flags.has_branch_stack (parse_branch_entries flags)
  let abi_user ← condP flags.has_stack_user le_u64
  let regs_user ← condP flags.has_stack_user (parse_vec_u64_variable regcnt_user)
  let user_stack_len ← condP flags.has_stack_user le_u64
  let user_stack ← condP flags.has_stack_user
    (parse_vec_u8_variable (user_stack_len.getD 0))
  let dyn_size ← condP (flags.has_stack_user && (user_stack_len.getD 0 != 0)) le_u64
  let weight ← condP flags.has_weight le_u64
  let data_src ← condP flags.has_data_src le_u64
  let transaction ← condP flags.has_transaction le_u64
  let abi ← condP flags.has_regs_intr le_u64
  let regs_intr ← condP flags.has_regs_intr (parse_vec_u64_variable regcnt_intr)
  pure { sample_id := sample_id, ip := ip, ptid := ptid, time := time,
         addr := addr, id := id, stream_id := stream_id, cpu := cpu,
         period := period, v := v, ips := ips, raw := raw, lbr := lbr,
         abi_user := abi_user, regs_user := regs_user,
         user_stack := user_stack, dyn_size := dyn_size, weight := weight,
         data_src := data_src, transaction := transaction, abi := abi,
         regs_intr := regs_intr }

/-- `parse_comm_record`. -/
def parse_comm_record : P CommRecord := do
  let ptid ← parse_thread_id
  let comm ← parse_c_string
  pure { ptid := ptid, comm := comm }

/-- `parse_file_section`. -/
def parse_file_section : P PerfFileSection := do
  let offset ← le_u64
  let size ← le_u64
  pure { offset := offset, size := size }

/-- `parse_build_id_record`.  The source takes
`record_size - 4 - 24` filename bytes (`record_size` is the full
`header.size`, including the 8-byte record header).  For `record_size < 28`
the Rust `usize` subtraction would abort; the claims only exercise sizes
well above 28, where truncated `Nat` subtraction agrees. -/
def parse_build_id_record (record_size : Nat) : P BuildIdRecord := do
  let pid ← le_i32
  let build_id ← takeN 24
  let filename ← takeN (record_size - 4 - 24)
  pure { pid := pid, build_id := build_id, filename := filename }

/-- The `alt!` body of `parse_event`: dispatch on the record header's type.
Each known type is an `alt!` branch guarded by `cond_reduce!`; `Lost` and
`Read` have no branch, so for them every branch fails and the exhausted
`alt!` is a parse `Error`.  `&attrs[0]` aborts on an empty attribute
table. -/
def parse_event_data (attrs : List EventAttr) (header : EventHeader) :
    P EventData :=
  match header.event_type with
  | .Mmap => do
      let r ← parse_mmap_record
      pure (EventData.MMAP r)
  | .Mmap2 => do
      let r ← parse_mmap2_record
      pure (EventData.MMAP2 r)
  | .Comm => do
      let r ← parse_comm_record
      pure (EventData.Comm r)
  | .Exit => do
      let r ← parse_exit_record
      pure (EventData.Exit r)
  | .Sample =>
      match attrs with
      | [] => fun _ => .error .abort
      | a :: _ => do
          let r ← parse_sample_record a
          pure (EventData.Sample r)
  | .Fork => do
      let r ← parse_fork_record
      pure (EventData.Fork r)
  | .Unthrottle => do
      let r ← parse_unthrottle_record
      pure (EventData.Unthrottle r)
  | .Throttle => do
      let r ← parse_throttle_record
      pure (EventData.Throttle r)
  | .BuildId => do
      let r ← parse_build_id_record header.size
      pure (EventData.BuildId r)
  | .FinishedRound => no_event
  | .Unknown _ => no_event
  | .Lost => fun _ => .error .error
  | .Read => fun _ => .error .error

/-- `parse_event`: record header, then the type-dispatched payload. -/
def parse_event (attrs : List EventAttr) : P Event := do
  let header ← parse_event_header
  let data ← parse_event_data attrs header
  pure { header := header, data := data }

/-- The bytes of the `"PERFILE2"` magic tag. -/
def perfMagic : List Nat := [80, 69, 82, 70, 73, 76, 69, 50]

/-- The 17 header flag bits as read by `parse_header`'s `bits!` block:
big-endian bit order within each of the first three flag bytes. -/
def headerFlagsOfBytes (b0 b1 b2 : Nat) : HeaderFlags :=
  { nrcpus := b0.testBit 7, arch := b0.testBit 6, version := b0.testBit 5,
    osrelease := b0.testBit 4, hostname := b0.testBit 3,
    build_id := b0.testBit 2, tracing_data := b0.testBit 1,
    branch_stack := b1.testBit 7, numa_topology := b1.testBit 6,
    cpu_topology := b1.testBit 5, event_desc := b1.testBit 4,
    cmdline := b1.testBit 3, total_mem := b1.testBit 2,
    cpuid := b1.testBit 1, cpudesc := b1.testBit 0,
    group_desc := b2.testBit 1, pmu_mappings := b2.testBit 0 }

/-- The fixed-width remainder of the header after the magic tag: sizes,
three section descriptors, three bytes of flag bits, 29 reserved bytes
(96 bytes in total). -/
def parse_header_rest : P PerfFileHeader := do
  let size ← le_u64
  let attr_size ← le_u64
  let attrs ← parse_file_section
  let data ← parse_file_section
  let event_types ← parse_file_section
  let b0 ← le_u8
  let b1 ← le_u8
  let b2 ← le_u8
  let _ ← takeN 29
  pure { size := size, attr_size := attr_size, attrs := attrs, data := data,
         event_types := event_types, flags := headerFlagsOfBytes b0 b1 b2 }

/-- `parse_header`: the `"PERFILE2"` magic tag, then the fixed-width
remainder. -/
def parse_header : P PerfFileHeader := do
  let _ ← tagP perfMagic
  parse_header_rest

/-- `parse_event_attr`. -/
def parse_event_attr : P EventAttr := do
  let attr_type ← le_u32
  let size ← le_u32
  let config ← le_u64
  let sample_period_freq ← le_u64
  let sample_type ← le_u64
  let read_format ← le_u64
  let settings ← le_u64
  let wakeup_events_watermark ← le_u32
  let bp_type ← le_u32
  let config1_or_bp_addr ← le_u64
  let config2_or_bp_len ← le_u64
  let branch_sample_type ← le_u64
  let sample_regs_user ← le_u64
  let sample_stack_user ← le_u32
  let clock_id ← le_i32
  let sample_regs_intr ← le_u64
  let aux_watermark ← le_u32
  let _ ← le_u32
  pure { attr_type := attr_type, size := size, config := config,
         sample_period_freq := sample_period_freq,
         sample_type := SampleFormatFlags.from_bits_truncate sample_type,
         read_format := ReadFormatFlags.from_bits_truncate read_format,
         settings := EventAttrFlags.from_bits_truncate settings,
         wakeup_events_watermark := wakeup_events_watermark,
         bp_type := bp_type, config1_or_bp_addr := config1_or_bp_addr,
         config2_or_bp_len := config2_or_bp_len,
         branch_sample_type := branch_sample_type,
         sample_regs_user := sample_regs_user,
         sample_stack_user := sample_stack_user, clock_id := clock_id,
         sample_regs_intr := sample_regs_intr,
         aux_watermark := aux_watermark, reserved := 0 }

/-!
File facade (`src/linux/perf_file.rs`).
-/

structure PerfFileEventDataIter where
  attrs : List EventAttr
  data : List Nat
  offset : Nat
deriving DecidableEq, Repr

/-- `PerfFileEventDataIter::next`.  `&self.data[self.offset..]` aborts when
the offset exceeds the slice length; a record is attempted only when more
than 8 bytes remain; on success the offset advances by the record header's
declared size; any parse error (or truncation) terminates the iterator. -/
def PerfFileEventDataIter.next (it : PerfFileEventDataIter) :
    Except PErr (Option (Event × PerfFileEventDataIter)) :=
  if it.data.length < it.offset then .error .abort
  else
    if 8 < (it.data.drop it.offset).length then
      match parse_event it.attrs (it.data.drop it.offset) with
      | .ok (ev, _) =>
          .ok (some (ev, { it with offset := it.offset + ev.header.size }))
      | .error _ => .ok none
    else .ok none

structure PerfFile where
  header : PerfFileHeader
  attrs : List EventAttr
  bytes : List Nat
deriving DecidableEq, Repr

/-- `slice::chunks(n)` (caller guarantees `n ≠ 0`), with fuel for structural
recursion. -/
def chunksAux (n : Nat) : Nat → List Nat → List (List Nat)
  | 0, _ => []
  | _, [] => []
  | fuel + 1, l => l.take n :: chunksAux n fuel (l.drop n)

/-- `slice::chunks(n)`. -/
def chunksL (n : Nat) (l : List Nat) : List (List Nat) := chunksAux n l.length l

/-- `PerfFile::new`: parse the header (`panic!` on failure, i.e. the
construction aborts), then slice the attribute section (aborting when the
range is out of bounds or `attr_size` is zero — `chunks(0)` aborts) and
decode each chunk, `unwrap()`ing each result. -/
def PerfFile.new (bytes : List Nat) : Except PErr PerfFile :=
  match parse_header bytes with
  | .error _ => .error .abort
  | .ok (header, _) =>
    if header.attrs.stop ≤ bytes.length then
      if header.attr_size = 0 then .error .abort
      else
        let slice := (bytes.drop header.attrs.start).take
          (header.attrs.stop - header.attrs.start)
        match (chunksL header.attr_size slice).mapM
            (fun c => match parse_event_attr c with
                      | .ok (a, _) => some a
                      | .error _ => none) with
        | some attrs => .ok { header := header, attrs := attrs, bytes := bytes }
        | none => .error .abort
    else .error .abort

/-- `PerfFile::data`: the record iterator over the data-section slice
(slicing aborts when the section overruns the buffer). -/
def PerfFile.data (f : PerfFile) : Except PErr PerfFileEventDataIter :=
  if f.header.data.stop ≤ f.bytes.length then
    .ok { attrs := f.attrs,
          data := (f.bytes.drop f.header.data.start).take f.header.data.size,
          offset := 0 }
  else .error .abort

/-- `PerfFile::parse_header_sections`: read `collect().len()` file sections
starting at `data.offset + data.size` (slicing aborts when that start is out
of bounds). -/
def PerfFile.parse_header_sections (f : PerfFile) :
    Except PErr (List PerfFileSection × List Nat) :=
  let flags := f.header.flags.collect
  let sections_start := f.header.data.offset + f.header.data.size
  if sections_start ≤ f.bytes.length then
    countP parse_file_section flags.length (f.bytes.drop sections_start)
  else .error .abort

/-- `PerfFile::sections`: `.unwrap()` of the parsed sections (abort on
failure), an `assert!` on the length, then zip with the collected flags. -/
def PerfFile.sections (f : PerfFile) :
    Except PErr (List (HeaderFlag × PerfFileSection)) :=
  match f.parse_header_sections with
  | .ok (secs, _) =>
      let flags := f.header.flags.collect
      if secs.length = flags.length then .ok (flags.zip secs)
      else .error .abort
  | .error _ => .error .abort

/-- `PerfFile::get_section`. -/
def PerfFile.get_section (f : PerfFile) (sec : HeaderFlag) :
    Except PErr (Option PerfFileSection) :=
  match f.sections with
  | .ok sections => .ok ((sections.find? (fun c => c.1 == sec)).map (fun c => c.2))
  | .error e => .error e

/-- `PerfFile::get_build_id`: locate the build-id section, parse a record
header from it, then a build-id record using the header's declared size. -/
def PerfFile.get_build_id (f : PerfFile) : Except PErr (Option BuildIdRecord) :=
  match f.get_section .BuildId with
  | .error e => .error e
  | .ok none => .ok none
  | .ok (some sec) =>
    if sec.stop ≤ f.bytes.length then
      match (do
          let header ← parse_event_header
          let build_id ← parse_build_id_record header.size
          pure build_id : P BuildIdRecord)
          ((f.bytes.drop sec.start).take sec.size) with
      | .ok (b, _) => .ok (some b)
      | .error _ => .ok none
    else .error .abort

/-!
Little-endian byte encodings and an all-absent sample value, used by the
concrete test vectors of the claim theorems.
-/

/-- The two little-endian bytes of a 16-bit value. -/
def u16le (n : Nat) : List Nat := [n % 256, n / 256 % 256]

/-- The four little-endian bytes of a 32-bit value. -/
def u32le (n : Nat) : List Nat := u16le (n % 65536) ++ u16le (n / 65536)

/-- The eight little-endian bytes of a 64-bit value. -/
def u64le (n : Nat) : List Nat :=
  u32le (n % 4294967296) ++ u32le (n / 4294967296)

/-- A sample record with every optional field absent. -/
def SampleRecord.empty : SampleRecord :=
  { sample_id := none, ip := none, ptid := none, time := none, addr := none,
    id := none, stream_id := none, cpu := none, period := none, v := none,
    ips := none, raw := none, lbr := none, abi_user := none,
    regs_user := none, user_stack := none, dyn_size := none, weight := none,
    data_src := none, transaction := none, abi := none, regs_intr := none }

/-!
Spec-side characterizations used by the claim theorems.
-/

/-- Which `EventData` variant the dispatch table associates with each
`EventType` (spec §4.C); `Lost` and `Read` have no parse arm in
`parse_event`, so no successful parse may carry them. -/
def typedVariantMatches : EventType → EventData → Prop
  | .Mmap, .MMAP _ => True
  | .Mmap2, .MMAP2 _ => True
  | .Comm, .Comm _ => True
  | .Exit, .Exit _ => True
  | .Sample, .Sample _ => True
  | .Fork, .Fork _ => True
  | .Throttle, .Throttle _ => True
  | .Unthrottle, .Unthrottle _ => True
  | .BuildId, .BuildId _ => True
  | .FinishedRound, .None => True
  | .Unknown _, .None => True
  | _, _ => False

/-- The spec's sample-record field table (§4.C), relative to a given
attribute block `a`: every optional field of a decoded sample is present
exactly when the corresponding `sample_type` bit of `a` is set (the four
`STACK_USER`-gated fields share that bit, and `dyn_size` additionally
requires a non-empty user stack), and the register vectors have exactly
`popcount` of `a`'s register masks many entries. -/
def sampleShapeMatches (a : EventAttr) (r : SampleRecord) : Prop :=
  r.sample_id.isSome = a.sample_type.has_identifier ∧
  r.ip.isSome = a.sample_type.has_ip ∧
  r.ptid.isSome = a.sample_type.has_tid ∧
  r.time.isSome = a.sample_type.has_time ∧
  r.addr.isSome = a.sample_type.has_addr ∧
  r.id.isSome = a.sample_type.has_sample_id ∧
  r.stream_id.isSome = a.sample_type.has_stream_id ∧
  r.cpu.isSome = a.sample_type.has_cpu ∧
  r.period.isSome = a.sample_type.has_period ∧
  r.v.isSome = a.sample_type.has_read ∧
  r.ips.isSome = a.sample_type.has_callchain ∧
  r.raw.isSome = a.sample_type.has_raw ∧
  r.lbr.isSome = a.sample_type.has_branch_stack ∧
  r.abi_user.isSome = a.sample_type.has_stack_user ∧
  r.regs_user.isSome = a.sample_type.has_stack_user ∧
  r.user_stack.isSome = a.sample_type.has_stack_user ∧
  r.dyn_size.isSome =
    (a.sample_type.has_stack_user && ((r.user_stack.getD []).length != 0)) ∧
  r.weight.isSome = a.sample_type.has_weight ∧
  r.data_src.isSome = a.sample_type.has_data_src ∧
  r.transaction.isSome = a.sample_type.has_transaction ∧
  r.abi.isSome = a.sample_type.has_regs_intr ∧
  r.regs_intr.isSome = a.sample_type.has_regs_intr ∧
  (∀ l, r.regs_user = some l → l.length = popcount a.sample_regs_user) ∧
  (∀ l, r.regs_intr = some l → l.length = popcount a.sample_regs_intr)

/-- A parser that consumes exactly `k` bytes: with at least `k` bytes of
input it succeeds leaving `s.drop k`, and with fewer it reports
`Incomplete`.  All the fixed-width primitive readers are of this kind. -/
def ExactP {α : Type} (p : P α) (k : Nat) : Prop :=
  ∀ s : List Nat,
    if k ≤ s.length then ∃ v, p s = .ok (v, s.drop k)
    else p s = .error .incomplete

/-!
General lemmas about the parser combinators.
-/

/-- `(p >>= f)` unfolds to `P.bind`. -/
theorem P.bind_def {α β : Type} (p : P α) (f : α → P β) : (p >>= f) = P.bind p f := rfl

/-- `pure` for the parser monad. -/
theorem P.pure_def {α : Type} (a : α) : (pure a : P α) = fun s => .ok (a, s) := rfl

/-- Inversion for a successful bind. -/
theorem P.bind_ok {α β : Type} {p : P α} {f : α → P β} {s : List Nat} {b : β}
    {s₂ : List Nat} (h : (p >>= f) s = .ok (b, s₂)) :
    ∃ a s₁, p s = .ok (a, s₁) ∧ f a s₁ = .ok (b, s₂) := by
  rw [P.bind_def] at h
  unfold P.bind at h
  cases hps : p s with
  | ok v => exact ⟨v.1, v.2, rfl, by rw [hps] at h; exact h⟩
  | error e => rw [hps] at h; exact absurd h (by simp)

/-- A successful `condP` yields `some` exactly when the condition holds,
and in the `some` case the inner parser produced the value. -/
theorem condP_ok {α : Type} {b : Bool} {p : P α} {s : List Nat} {v : Option α}
    {s₁ : List Nat} (h : condP b p s = .ok (v, s₁)) :
    v.isSome = b ∧ ∀ a, v = some a → p s = .ok (a, s₁) := by
  unfold condP at h
  cases b with
  | false =>
    simp only [Except.ok.injEq, Prod.mk.injEq] at h
    refine ⟨by simp [← h.1], ?_⟩
    intro a ha
    rw [← h.1] at ha
    exact absurd ha (by simp)
  | true =>
    cases hps : p s with
    | ok w =>
      rw [hps] at h
      simp only [Except.ok.injEq, Prod.mk.injEq] at h
      refine ⟨by simp [← h.1], ?_⟩
      intro a ha
      rw [← h.1] at ha
      simp only [Option.some.injEq] at ha
      rw [← ha, ← h.2, ← hps]
    | error e =>
      rw [hps] at h
      exact absurd h (by simp)

/-- A successful `countP p n` yields a list of length exactly `n` whose
elements are all produced by successful runs of `p`. -/
theorem countP_ok {α : Type} {p : P α} {Q : α → Prop}
    (hp : ∀ s a s₁, p s = .ok (a, s₁) → Q a) :
    ∀ {n : Nat} {s : List Nat} {l : List α} {s₁ : List Nat},
      countP p n s = .ok (l, s₁) → l.length = n ∧ ∀ x ∈ l, Q x := by
  intro n
  induction n with
  | zero =>
    intro s l s₁ h
    unfold countP at h
    rw [P.pure_def] at h
    simp only [Except.ok.injEq, Prod.mk.injEq] at h
    simp [← h.1]
  | succ m ih =>
    intro s l s₁ h
    unfold countP at h
    obtain ⟨x, sx, hx, h⟩ := P.bind_ok h
    obtain ⟨xs, sxs, hxs, h⟩ := P.bind_ok h
    rw [P.pure_def] at h
    simp only [Except.ok.injEq, Prod.mk.injEq] at h
    obtain ⟨hl, hs⟩ := h
    obtain ⟨hlen, hmem⟩ := ih hxs
    subst hl
    refine ⟨by simp [hlen], ?_⟩
    intro y hy
    rcases List.mem_cons.mp hy with h1 | h2
    · subst h1
      exact hp _ _ _ hx
    · exact hmem y h2

/-- A failing first component fails the bind. -/
theorem P.bind_error {α β : Type} {p : P α} {f : α → P β} {s : List Nat}
    {e : PErr} (h : p s = .error e) : (p >>= f) s = .error e := by
  rw [P.bind_def]
  unfold P.bind
  rw [h]

/-- A successful first component steps the bind. -/
theorem P.bind_ok_fwd {α β : Type} {p : P α} {f : α → P β} {s : List Nat}
    {a : α} {s₁ : List Nat} (h : p s = .ok (a, s₁)) :
    (p >>= f) s = f a s₁ := by
  rw [P.bind_def]
  unfold P.bind
  rw [h]

/-- After dropping the non-NUL prefix of an input containing a NUL, the head
is that first NUL. -/
theorem dropWhile_head_zero :
    ∀ s : List Nat, 0 ∈ s →
      (s.dropWhile (fun c => !is_nul_byte c)).head? = some 0 := by
  intro s
  induction s with
  | nil => intro h; exact absurd h (by simp)
  | cons b rest ih =>
    intro h
    by_cases hb : b = 0
    · subst hb
      simp [List.dropWhile, is_nul_byte]
    · have hr : 0 ∈ rest := by
        rcases List.mem_cons.mp h with h1 | h2
        · exact absurd h1.symm hb
        · exact h2
      have hpb : (!is_nul_byte b) = true := by
        simp [is_nul_byte, hb]
      simp only [List.dropWhile, hpb]
      exact ih hr

/-- C9 (amended): on any input containing a NUL, `parse_c_string` returns
the bytes preceding the first NUL, and the remaining input starts AT that
NUL — the terminating NUL is NOT consumed (the claim said it was). -/
theorem c9_cstring_stops_at_nul (s : List Nat) (h : 0 ∈ s) :
    parse_c_string s =
      .ok (s.takeWhile (fun c => !is_nul_byte c),
           s.dropWhile (fun c => !is_nul_byte c)) ∧
    (s.dropWhile (fun c => !is_nul_byte c)).head? = some 0 ∧
    s.takeWhile (fun c => !is_nul_byte c) ++
      s.dropWhile (fun c => !is_nul_byte c) = s ∧
    ∀ x ∈ s.takeWhile (fun c => !is_nul_byte c), x ≠ 0 := by
  refine ⟨?_, dropWhile_head_zero s h, List.takeWhile_append_dropWhile _ _, ?_⟩
  · have ha : s.any is_nul_byte = true := List.any_eq_true.mpr ⟨0, h, rfl⟩
    unfold parse_c_string
    rw [if_pos ha]
  · intro x hx
    have hp := List.mem_takeWhile_imp hx
    simp only [is_nul_byte, Bool.not_eq_eq_eq_not, Bool.not_true, beq_eq_false_iff_ne,
      ne_eq] at hp
    exact hp

/-- C9 witness: the theorem applied at the concrete input `[97, 0, 98]`. -/
theorem c9_witness :
    (0 ∈ ([97, 0, 98] : List Nat)) ∧
    (parse_c_string [97, 0, 98] =
      .ok (([97, 0, 98] : List Nat).takeWhile (fun c => !is_nul_byte c),
           ([97, 0, 98] : List Nat).dropWhile (fun c => !is_nul_byte c)) ∧
    (([97, 0, 98] : List Nat).dropWhile (fun c => !is_nul_byte c)).head? = some 0 ∧
    ([97, 0, 98] : List Nat).takeWhile (fun c => !is_nul_byte c) ++
      ([97, 0, 98] : List Nat).dropWhile (fun c => !is_nul_byte c) = [97, 0, 98] ∧
    ∀ x ∈ ([97, 0, 98] : List Nat).takeWhile (fun c => !is_nul_byte c), x ≠ 0) :=
  ⟨by decide, c9_cstring_stops_at_nul [97, 0, 98] (by decide)⟩

/-- C9 counterexample: at `[97, 0, 98]` the remainder is `[0, 98]` — it
starts at the NUL, not immediately after it as the claim states. -/
theorem c9_counterexample :
    parse_c_string [97, 0, 98] = .ok ([97], [0, 98]) ∧
    parse_c_string [97, 0, 98] ≠ .ok ([97], [98]) := by
  decide

/-- C2: whenever the record iterator yields a record, the offset into the
data section advances by exactly the record header's declared size
(measured from the record's start), independently of how many bytes the
per-variant sub-parser consumed. -/
theorem c2_iterator_advances_by_header_size
    (it : PerfFileEventDataIter) (ev : Event) (it' : PerfFileEventDataIter)
    (h : it.next = .ok (some (ev, it'))) :
    it'.offset = it.offset + ev.header.size ∧
    it'.attrs = it.attrs ∧ it'.data = it.data := by
  unfold PerfFileEventDataIter.next at h
  split at h
  · exact absurd h (by simp)
  · split at h
    · split at h
      · simp only [Except.ok.injEq, Option.some.injEq, Prod.mk.injEq] at h
        obtain ⟨hev, hit⟩ := h
        subst hev
        subst hit
        simp
      · exact absurd h (by simp)
    · exact absurd h (by simp)

/-- C2 witness: a 16-byte data section holding one unknown-type record of
declared size 16; the iterator yields it and advances to offset 16. -/
theorem c2_witness :
    PerfFileEventDataIter.next
        ⟨[], u32le 99 ++ u16le 7 ++ u16le 16 ++
          [201, 202, 203, 204, 205, 206, 207, 208], 0⟩ =
      .ok (some (⟨⟨.Unknown 99, 7, 16⟩, .None⟩,
        ⟨[], u32le 99 ++ u16le 7 ++ u16le 16 ++
          [201, 202, 203, 204, 205, 206, 207, 208], 16⟩)) ∧
    ((⟨[], u32le 99 ++ u16le 7 ++ u16le 16 ++
          [201, 202, 203, 204, 205, 206, 207, 208], 16⟩ :
        PerfFileEventDataIter).offset =
      (⟨[], u32le 99 ++ u16le 7 ++ u16le 16 ++
          [201, 202, 203, 204, 205, 206, 207, 208], 0⟩ :
        PerfFileEventDataIter).offset +
        (⟨⟨.Unknown 99, 7, 16⟩, .None⟩ : Event).header.size ∧
     (⟨[], u32le 99 ++ u16le 7 ++ u16le 16 ++
          [201, 202, 203, 204, 205, 206, 207, 208], 16⟩ :
        PerfFileEventDataIter).attrs =
      (⟨[], u32le 99 ++ u16le 7 ++ u16le 16 ++
          [201, 202, 203, 204, 205, 206, 207, 208], 0⟩ :
        PerfFileEventDataIter).attrs ∧
     (⟨[], u32le 99 ++ u16le 7 ++ u16le 16 ++
          [201, 202, 203, 204, 205, 206, 207, 208], 16⟩ :
        PerfFileEventDataIter).data =
      (⟨[], u32le 99 ++ u16le 7 ++ u16le 16 ++
          [201, 202, 203, 204, 205, 206, 207, 208], 0⟩ :
        PerfFileEventDataIter).data) :=
  ⟨by decide,
   c2_iterator_advances_by_header_size _ _ _ (by decide)⟩

/-- C3 (code-bug evidence): a data section of exactly 8 bytes holding a
payload-less `FinishedRound` record.  At least 8 bytes remain and
`parse_event` decodes the record completely, yet the iterator's `> 8`
guard terminates without yielding it — the claim (and spec) require the
record to be yielded when at least 8 bytes remain. -/
theorem c3_final_finished_round_dropped :
    ([68, 0, 0, 0, 0, 0, 8, 0] : List Nat).length = 8 ∧
    parse_event [] [68, 0, 0, 0, 0, 0, 8, 0] =
      .ok (⟨⟨.FinishedRound, 0, 8⟩, .None⟩, []) ∧
    PerfFileEventDataIter.next ⟨[], [68, 0, 0, 0, 0, 0, 8, 0], 0⟩ = .ok none := by
  decide

/-- Each value tuple decoded by `parse_read_value` carries an id exactly
when the `ID` bit is set. -/
theorem read_value_id (flags : ReadFormatFlags) :
    ∀ s a s₁, parse_read_value flags s = .ok (a, s₁) →
      a.2.isSome = flags.has_id := by
  intro s a s₁ h
  unfold parse_read_value at h
  obtain ⟨value, s', hv, h⟩ := P.bind_ok h
  obtain ⟨id, s'', hid, h⟩ := P.bind_ok h
  rw [P.pure_def] at h
  simp only [Except.ok.injEq, Prod.mk.injEq] at h
  obtain ⟨ha, hs⟩ := h
  rw [← ha]
  exact (condP_ok hid).1

/-- C5: shape of the read-format sub-record.  `time_enabled` is present iff
`TOTAL_TIME_ENABLED`, `time_running` iff `TOTAL_TIME_RUNNING`, every value
tuple has an id iff `ID`; with `GROUP` clear there is exactly one value,
and with `GROUP` set there are exactly `nr` values, `nr` being the leading
u64 of the sub-record. -/
theorem c5_read_format_shape (flags : ReadFormatFlags) (s : List Nat)
    (r : ReadFormat) (s₁ : List Nat)
    (h : parse_read_format flags s = .ok (r, s₁)) :
    r.time_enabled.isSome = flags.has_total_time_enabled ∧
    r.time_running.isSome = flags.has_total_time_running ∧
    (∀ p ∈ r.values, p.2.isSome = flags.has_id) ∧
    (flags.has_group = false → r.values.length = 1) ∧
    (flags.has_group = true →
      ∀ nr s₂, le_u64 s = .ok (nr, s₂) → r.values.length = nr) := by
  unfold parse_read_format at h
  cases hgb : flags.has_group with
  | true =>
    rw [hgb] at h
    rw [if_pos rfl] at h
    obtain ⟨nr, s', hnr, h⟩ := P.bind_ok h
    obtain ⟨te, s2, hte, h⟩ := P.bind_ok h
    obtain ⟨tr, s3, htr, h⟩ := P.bind_ok h
    obtain ⟨vals, s4, hvals, h⟩ := P.bind_ok h
    rw [P.pure_def] at h
    simp only [Except.ok.injEq, Prod.mk.injEq] at h
    obtain ⟨hr, hs⟩ := h
    subst hr
    have hcount := countP_ok (read_value_id flags) hvals
    refine ⟨(condP_ok hte).1, (condP_ok htr).1, ?_, ?_, ?_⟩
    · intro p hp
      exact hcount.2 p hp
    · intro hfalse
      exact absurd hfalse (by simp)
    · intro _ nr' s₂ hnr'
      rw [hnr] at hnr'
      simp only [Except.ok.injEq, Prod.mk.injEq] at hnr'
      exact hcount.1.trans hnr'.1
  | false =>
    rw [hgb] at h
    rw [if_neg (by simp)] at h
    obtain ⟨value, s', hv, h⟩ := P.bind_ok h
    obtain ⟨te, s2, hte, h⟩ := P.bind_ok h
    obtain ⟨tr, s3, htr, h⟩ := P.bind_ok h
    obtain ⟨id, s4, hid, h⟩ := P.bind_ok h
    rw [P.pure_def] at h
    simp only [Except.ok.injEq, Prod.mk.injEq] at h
    obtain ⟨hr, hs⟩ := h
    subst hr
    refine ⟨(condP_ok hte).1, (condP_ok htr).1, ?_, ?_, ?_⟩
    · intro p hp
      rw [List.mem_singleton] at hp
      rw [hp]
      exact (condP_ok hid).1
    · intro _
      rfl
    · intro htrue
      exact absurd htrue (by simp)

/-- C5 witness: `read_format = TOTAL_TIME_ENABLED | GROUP` (spec scenario 5):
`nr = 3`, `time_enabled = 7`, three id-less values. -/
theorem c5_witness :
    parse_read_format (ReadFormatFlags.from_bits_truncate 9)
        (u64le 3 ++ u64le 7 ++ u64le 1 ++ u64le 2 ++ u64le 3) =
      .ok ((⟨some 7, none, [(1, none), (2, none), (3, none)]⟩ : ReadFormat),
           ([] : List Nat)) ∧
    ((⟨some 7, none, [(1, none), (2, none), (3, none)]⟩ :
        ReadFormat).time_enabled.isSome =
      (ReadFormatFlags.from_bits_truncate 9).has_total_time_enabled ∧
    (⟨some 7, none, [(1, none), (2, none), (3, none)]⟩ :
        ReadFormat).time_running.isSome =
      (ReadFormatFlags.from_bits_truncate 9).has_total_time_running ∧
    (∀ p ∈ (⟨some 7, none, [(1, none), (2, none), (3, none)]⟩ :
        ReadFormat).values,
      p.2.isSome = (ReadFormatFlags.from_bits_truncate 9).has_id) ∧
    ((ReadFormatFlags.from_bits_truncate 9).has_group = false →
      (⟨some 7, none, [(1, none), (2, none), (3, none)]⟩ :
        ReadFormat).values.length = 1) ∧
    ((ReadFormatFlags.from_bits_truncate 9).has_group = true →
      ∀ nr s₂,
        le_u64 (u64le 3 ++ u64le 7 ++ u64le 1 ++ u64le 2 ++ u64le 3) =
          .ok (nr, s₂) →
        (⟨some 7, none, [(1, none), (2, none), (3, none)]⟩ :
          ReadFormat).values.length = nr)) :=
  ⟨by decide,
   c5_read_format_shape (ReadFormatFlags.from_bits_truncate 9)
     (u64le 3 ++ u64le 7 ++ u64le 1 ++ u64le 2 ++ u64le 3)
     ⟨some 7, none, [(1, none), (2, none), (3, none)]⟩ [] (by decide)⟩

/-- C8 (code-bug evidence): `parse_branch_entries` opens with
`assert!(flags.has_branch_stack() && flags.has_regs_user())`.  With
`sample_type = BRANCH_STACK` only (bit 11, value 2048) the assert fails and
the program aborts — both at the branch-entry parser and inside a full
sample-record parse — whereas with `REGS_USER` also set (value 6144) the
field parses fine (here: `bnr = 0`, no entries).  The claim requires the
no-abort behavior in both cases.  (Attribute fields other than
`sample_type` are arbitrary nonzero values; none of them is consulted.) -/
theorem c8_branch_stack_without_regs_user_aborts :
    (SampleFormatFlags.from_bits_truncate 2048).has_branch_stack = true ∧
    (SampleFormatFlags.from_bits_truncate 2048).has_regs_user = false ∧
    parse_branch_entries (SampleFormatFlags.from_bits_truncate 2048)
      (u64le 0) = .error .abort ∧
    parse_branch_entries (SampleFormatFlags.from_bits_truncate 6144)
      (u64le 0) = .ok ([], []) ∧
    parse_sample_record
      ⟨11, 12, 13, 14, SampleFormatFlags.from_bits_truncate 2048,
       ⟨0⟩, ⟨0⟩, 15, 16, 17, 18, 19, 20, 21, 22, 23, 24, 0⟩
      (u64le 0) = .error .abort := by
  decide

/-- C6 (code-bug evidence): a `BuildId` record with declared `header.size
= 40`.  Per the claim the filename field is `40 - 8 - 4 - 24 = 4` bytes,
NUL-trimmed.  The code instead takes `40 - 4 - 24 = 12` bytes — reading 8
bytes past the record's declared end — and keeps everything after the
first NUL.  Consequently, on a well-formed 40-byte build-id feature
section (second conjunct) the parse used by `get_build_id` runs out of
input and fails. -/
theorem c6_build_id_filename_length_wrong :
    parse_build_id_record 40
        (u32le 1 ++ List.replicate 24 77 ++ [97, 46, 111, 0] ++
          [1, 2, 3, 4, 5, 6, 7, 8]) =
      .ok (⟨1, List.replicate 24 77,
            [97, 46, 111, 0, 1, 2, 3, 4, 5, 6, 7, 8]⟩, []) ∧
    (do
      let header ← parse_event_header
      let build_id ← parse_build_id_record header.size
      pure build_id : P BuildIdRecord)
        (u32le 67 ++ u16le 0 ++ u16le 40 ++ u32le 1 ++
          List.replicate 24 77 ++ [97, 46, 111, 0]) = .error .incomplete ∧
    ([97, 46, 111, 0, 1, 2, 3, 4, 5, 6, 7, 8] : List Nat).length =
      40 - 4 - 24 ∧
    (40 : Nat) - 8 - 4 - 24 = 4 ∧
    ([97, 46, 111, 0, 1, 2, 3, 4, 5, 6, 7, 8] : List Nat).length ≠ 4 := by
  decide

/-- C7 (amended): every successfully parsed record carries the `EventData`
variant the dispatch table associates with its header type; since
`typedVariantMatches` is `False` for `Lost` and `Read`, no record of those
two types ever parses successfully (they have no dispatch arm), and unknown
type codes yield the opaque `EventData.None`. -/
theorem c7_dispatch_variants (attrs : List EventAttr) (s : List Nat)
    (ev : Event) (s₁ : List Nat) (h : parse_event attrs s = .ok (ev, s₁)) :
    typedVariantMatches ev.header.event_type ev.data := by
  unfold parse_event at h
  obtain ⟨header, sh, hh, h⟩ := P.bind_ok h
  obtain ⟨data, sd, hd, h⟩ := P.bind_ok h
  rw [P.pure_def] at h
  simp only [Except.ok.injEq, Prod.mk.injEq] at h
  obtain ⟨hev, hs⟩ := h
  subst hev
  show typedVariantMatches header.event_type data
  unfold parse_event_data at hd
  cases ht : header.event_type with
  | Mmap =>
    rw [ht] at hd
    obtain ⟨r, sr, hr, hd⟩ := P.bind_ok hd
    rw [P.pure_def] at hd
    simp only [Except.ok.injEq, Prod.mk.injEq] at hd
    rw [← hd.1]
    trivial
  | Mmap2 =>
    rw [ht] at hd
    obtain ⟨r, sr, hr, hd⟩ := P.bind_ok hd
    rw [P.pure_def] at hd
    simp only [Except.ok.injEq, Prod.mk.injEq] at hd
    rw [← hd.1]
    trivial
  | Comm =>
    rw [ht] at hd
    obtain ⟨r, sr, hr, hd⟩ := P.bind_ok hd
    rw [P.pure_def] at hd
    simp only [Except.ok.injEq, Prod.mk.injEq] at hd
    rw [← hd.1]
    trivial
  | Exit =>
    rw [ht] at hd
    obtain ⟨r, sr, hr, hd⟩ := P.bind_ok hd
    rw [P.pure_def] at hd
    simp only [Except.ok.injEq, Prod.mk.injEq] at hd
    rw [← hd.1]
    trivial
  | Sample =>
    rw [ht] at hd
    cases attrs with
    | nil => exact absurd hd (by simp)
    | cons a as =>
      obtain ⟨r, sr, hr, hd⟩ := P.bind_ok hd
      rw [P.pure_def] at hd
      simp only [Except.ok.injEq, Prod.mk.injEq] at hd
      rw [← hd.1]
      trivial
  | Fork =>
    rw [ht] at hd
    obtain ⟨r, sr, hr, hd⟩ := P.bind_ok hd
    rw [P.pure_def] at hd
    simp only [Except.ok.injEq, Prod.mk.injEq] at hd
    rw [← hd.1]
    trivial
  | Unthrottle =>
    rw [ht] at hd
    obtain ⟨r, sr, hr, hd⟩ := P.bind_ok hd
    rw [P.pure_def] at hd
    simp only [Except.ok.injEq, Prod.mk.injEq] at hd
    rw [← hd.1]
    trivial
  | Throttle =>
    rw [ht] at hd
    obtain ⟨r, sr, hr, hd⟩ := P.bind_ok hd
    rw [P.pure_def] at hd
    simp only [Except.ok.injEq, Prod.mk.injEq] at hd
    rw [← hd.1]
    trivial
  | BuildId =>
    rw [ht] at hd
    obtain ⟨r, sr, hr, hd⟩ := P.bind_ok hd
    rw [P.pure_def] at hd
    simp only [Except.ok.injEq, Prod.mk.injEq] at hd
    rw [← hd.1]
    trivial
  | FinishedRound =>
    rw [ht] at hd
    unfold no_event at hd
    simp only [Except.ok.injEq, Prod.mk.injEq] at hd
    rw [← hd.1]
    trivial
  | Unknown code =>
    rw [ht] at hd
    unfold no_event at hd
    simp only [Except.ok.injEq, Prod.mk.injEq] at hd
    rw [← hd.1]
    trivial
  | Lost =>
    rw [ht] at hd
    exact absurd hd (by simp)
  | Read =>
    rw [ht] at hd
    exact absurd hd (by simp)

/-- C7 witness: a concrete `Mmap` record (type 1) parses into the `MMAP`
variant. -/
theorem c7_witness :
    parse_event []
        (u32le 1 ++ u16le 3 ++ u16le 48 ++ u32le 17 ++ u32le 17 ++
          u64le 4194304 ++ u64le 4096 ++ u64le 0 ++ [97, 0]) =
      .ok (⟨⟨.Mmap, 3, 48⟩, .MMAP ⟨17, 17, 4194304, 4096, 0, [97]⟩⟩, [0]) ∧
    typedVariantMatches
      (⟨⟨.Mmap, 3, 48⟩, .MMAP ⟨17, 17, 4194304, 4096, 0, [97]⟩⟩ :
        Event).header.event_type
      (⟨⟨.Mmap, 3, 48⟩, .MMAP ⟨17, 17, 4194304, 4096, 0, [97]⟩⟩ :
        Event).data := by
  constructor
  · decide
  · exact c7_dispatch_variants []
      (u32le 1 ++ u16le 3 ++ u16le 48 ++ u32le 17 ++ u32le 17 ++
        u64le 4194304 ++ u64le 4096 ++ u64le 0 ++ [97, 0])
      ⟨⟨.Mmap, 3, 48⟩, .MMAP ⟨17, 17, 4194304, 4096, 0, [97]⟩⟩ [0] (by decide)

/-- C7 counterexample: the dispatch table does map code 2 to `Lost` and
code 8 to `Read`, but records of those types do NOT parse successfully —
`parse_event` fails with an `Error` and the iterator terminates instead of
yielding `Lost`/`Read` variants, contradicting the claim. -/
theorem c7_counterexample :
    EventType.new 2 = .Lost ∧ EventType.new 8 = .Read ∧
    parse_event [] (u32le 2 ++ u16le 0 ++ u16le 24 ++ List.replicate 16 51) =
      .error .error ∧
    parse_event [] (u32le 8 ++ u16le 0 ++ u16le 24 ++ List.replicate 16 51) =
      .error .error ∧
    PerfFileEventDataIter.next
      ⟨[], u32le 2 ++ u16le 0 ++ u16le 24 ++ List.replicate 16 51, 0⟩ =
      .ok none := by
  decide

/-- A successful `countP p n` yields exactly `n` elements. -/
theorem countP_len {α : Type} {p : P α} {n : Nat} {s : List Nat} {l : List α}
    {s₁ : List Nat} (h : countP p n s = .ok (l, s₁)) : l.length = n :=
  (countP_ok (fun _ _ _ _ => trivial) h).1

/-- Every successfully decoded sample record has exactly the optional
fields selected by the given attribute block's `sample_type`, with the
register vectors sized by the popcounts of its register masks. -/
theorem parse_sample_record_shape (a : EventAttr) (s : List Nat)
    (r : SampleRecord) (s₁ : List Nat)
    (h : parse_sample_record a s = .ok (r, s₁)) :
    sampleShapeMatches a r := by
  unfold parse_sample_record at h
  obtain ⟨sample_id, t1, h1, h⟩ := P.bind_ok h
  obtain ⟨ip, t2, h2, h⟩ := P.bind_ok h
  obtain ⟨ptid, t3, h3, h⟩ := P.bind_ok h
  obtain ⟨time, t4, h4, h⟩ := P.bind_ok h
  obtain ⟨addr, t5, h5, h⟩ := P.bind_ok h
  obtain ⟨id, t6, h6, h⟩ := P.bind_ok h
  obtain ⟨stream_id, t7, h7, h⟩ := P.bind_ok h
  obtain ⟨cpu, t8, h8, h⟩ := P.bind_ok h
  obtain ⟨period, t9, h9, h⟩ := P.bind_ok h
  obtain ⟨v, t10, h10, h⟩ := P.bind_ok h
  obtain ⟨ips, t11, h11, h⟩ := P.bind_ok h
  obtain ⟨raw, t12, h12, h⟩ := P.bind_ok h
  obtain ⟨lbr, t13, h13, h⟩ := P.bind_ok h
  obtain ⟨abi_user, t14, h14, h⟩ := P.bind_ok h
  obtain ⟨regs_user, t15, h15, h⟩ := P.bind_ok h
  obtain ⟨user_stack_len, t16, h16, h⟩ := P.bind_ok h
  obtain ⟨user_stack, t17, h17, h⟩ := P.bind_ok h
  obtain ⟨dyn_size, t18, h18, h⟩ := P.bind_ok h
  obtain ⟨weight, t19, h19, h⟩ := P.bind_ok h
  obtain ⟨data_src, t20, h20, h⟩ := P.bind_ok h
  obtain ⟨transaction, t21, h21, h⟩ := P.bind_ok h
  obtain ⟨abi, t22, h22, h⟩ := P.bind_ok h
  obtain ⟨regs_intr, t23, h23, h⟩ := P.bind_ok h
  rw [P.pure_def] at h
  simp only [Except.ok.injEq, Prod.mk.injEq] at h
  obtain ⟨hr, hs⟩ := h
  subst hr
  unfold sampleShapeMatches
  refine ⟨(condP_ok h1).1, (condP_ok h2).1, (condP_ok h3).1, (condP_ok h4).1,
    (condP_ok h5).1, (condP_ok h6).1, (condP_ok h7).1, (condP_ok h8).1,
    (condP_ok h9).1, (condP_ok h10).1, (condP_ok h11).1, (condP_ok h12).1,
    (condP_ok h13).1, (condP_ok h14).1, (condP_ok h15).1, (condP_ok h17).1,
    ?_, (condP_ok h19).1, (condP_ok h20).1, (condP_ok h21).1,
    (condP_ok h22).1, (condP_ok h23).1, ?_, ?_⟩
  · show dyn_size.isSome = _
    rw [(condP_ok h18).1]
    cases hsu : a.sample_type.has_stack_user with
    | false => simp
    | true =>
      have hl16 : user_stack_len.isSome = true := by
        rw [(condP_ok h16).1, hsu]
      obtain ⟨L, hL⟩ := Option.isSome_iff_exists.mp hl16
      have hl17 : user_stack.isSome = true := by
        rw [(condP_ok h17).1, hsu]
      obtain ⟨us, hus⟩ := Option.isSome_iff_exists.mp hl17
      have hrun := (condP_ok h17).2 us hus
      have hlen : us.length = user_stack_len.getD 0 := countP_len hrun
      rw [hL, hus]
      rw [hL] at hlen
      simp only [Option.getD_some]
      simp only [Option.getD_some] at hlen
      rw [hlen]
  · show ∀ l, regs_user = some l → l.length = popcount a.sample_regs_user
    intro l hl
    exact countP_len ((condP_ok h15).2 l hl)
  · show ∀ l, regs_intr = some l → l.length = popcount a.sample_regs_intr
    intro l hl
    exact countP_len ((condP_ok h23).2 l hl)

/-- C1 (amended): for every record the iterator yields from a nonempty
attribute table, a decoded sample's optional fields and register-vector
lengths are those dictated by the FIRST attribute block of the table —
`parse_event` passes `&attrs[0]` to the sample parser no matter which
event the record belongs to.  For a single-block table this coincides with
the claim; for multi-block tables the record's own event attribute is
ignored (see the counterexample). -/
theorem c1_sample_fields_follow_first_attr (a : EventAttr)
    (attrs : List EventAttr) (s s₁ : List Nat) (ev : Event)
    (h : parse_event (a :: attrs) s = .ok (ev, s₁)) :
    ∀ r, ev.data = .Sample r → sampleShapeMatches a r := by
  intro r hr
  unfold parse_event at h
  obtain ⟨header, sh, hh, h⟩ := P.bind_ok h
  obtain ⟨data, sd, hd, h⟩ := P.bind_ok h
  rw [P.pure_def] at h
  simp only [Except.ok.injEq, Prod.mk.injEq] at h
  obtain ⟨hev, hs⟩ := h
  subst hev
  replace hr : data = .Sample r := hr
  subst hr
  unfold parse_event_data at hd
  cases ht : header.event_type with
  | Mmap =>
    rw [ht] at hd
    obtain ⟨r', sr, hr', hd⟩ := P.bind_ok hd
    rw [P.pure_def] at hd
    exact absurd hd (by simp)
  | Mmap2 =>
    rw [ht] at hd
    obtain ⟨r', sr, hr', hd⟩ := P.bind_ok hd
    rw [P.pure_def] at hd
    exact absurd hd (by simp)
  | Comm =>
    rw [ht] at hd
    obtain ⟨r', sr, hr', hd⟩ := P.bind_ok hd
    rw [P.pure_def] at hd
    exact absurd hd (by simp)
  | Exit =>
    rw [ht] at hd
    obtain ⟨r', sr, hr', hd⟩ := P.bind_ok hd
    rw [P.pure_def] at hd
    exact absurd hd (by simp)
  | Sample =>
    rw [ht] at hd
    obtain ⟨r', sr, hr', hd⟩ := P.bind_ok hd
    rw [P.pure_def] at hd
    simp only [Except.ok.injEq, Prod.mk.injEq, EventData.Sample.injEq] at hd
    rw [← hd.1]
    exact parse_sample_record_shape a sh r' sr hr'
  | Fork =>
    rw [ht] at hd
    obtain ⟨r', sr, hr', hd⟩ := P.bind_ok hd
    rw [P.pure_def] at hd
    exact absurd hd (by simp)
  | Unthrottle =>
    rw [ht] at hd
    obtain ⟨r', sr, hr', hd⟩ := P.bind_ok hd
    rw [P.pure_def] at hd
    exact absurd hd (by simp)
  | Throttle =>
    rw [ht] at hd
    obtain ⟨r', sr, hr', hd⟩ := P.bind_ok hd
    rw [P.pure_def] at hd
    exact absurd hd (by simp)
  | BuildId =>
    rw [ht] at hd
    obtain ⟨r', sr, hr', hd⟩ := P.bind_ok hd
    rw [P.pure_def] at hd
    exact absurd hd (by simp)
  | FinishedRound =>
    rw [ht] at hd
    unfold no_event at hd
    exact absurd hd (by simp)
  | Unknown code =>
    rw [ht] at hd
    unfold no_event at hd
    exact absurd hd (by simp)
  | Lost =>
    rw [ht] at hd
    exact absurd hd (by simp)
  | Read =>
    rw [ht] at hd
    exact absurd hd (by simp)

/-- C1 witness: a single-block attribute table whose event has
`sample_type = STACK_USER` (bit 13) and `sample_regs_user = 1`; the decoded
sample has exactly the `STACK_USER` fields, with one user register.
(Attribute fields the sample parser does not consult carry arbitrary
nonzero values.) -/
theorem c1_witness :
    parse_event
        [⟨31, 32, 33, 34, ⟨8192⟩, ⟨0⟩, ⟨0⟩, 35, 36, 37, 38, 39, 1, 40, 0,
          41, 42, 0⟩]
        (u32le 9 ++ u16le 6 ++ u16le 32 ++ u64le 5 ++ u64le 7 ++ u64le 0) =
      .ok (⟨⟨.Sample, 6, 32⟩,
            .Sample ({ SampleRecord.empty with
              abi_user := some 5,
              regs_user := some [7],
              user_stack := some [] })⟩, []) ∧
    sampleShapeMatches
      ⟨31, 32, 33, 34, ⟨8192⟩, ⟨0⟩, ⟨0⟩, 35, 36, 37, 38, 39, 1, 40, 0,
        41, 42, 0⟩
      { SampleRecord.empty with
        abi_user := some 5,
        regs_user := some [7],
        user_stack := some [] } :=
  ⟨by decide,
   c1_sample_fields_follow_first_attr
     ⟨31, 32, 33, 34, ⟨8192⟩, ⟨0⟩, ⟨0⟩, 35, 36, 37, 38, 39, 1, 40, 0,
       41, 42, 0⟩ []
     (u32le 9 ++ u16le 6 ++ u16le 32 ++ u64le 5 ++ u64le 7 ++ u64le 0) []
     ⟨⟨.Sample, 6, 32⟩,
       .Sample ({ SampleRecord.empty with
              abi_user := some 5,
              regs_user := some [7],
              user_stack := some [] })⟩ (by decide)
     { SampleRecord.empty with
        abi_user := some 5,
        regs_user := some [7],
        user_stack := some [] }
     rfl⟩

/-- C1 counterexample: an attribute table with TWO blocks that differ only
in `sample_regs_user` (popcounts 1 vs 2).  The decoder always decodes a
sample with the FIRST block — the result is bit-for-bit identical if the
second block is replaced by a copy of the first — so a sample record of
the second event gets `regs_user` of length 1, not
`popcount(sample_regs_user) = 2` of its own attribute block, refuting the
claim for tables with more than one attribute block. -/
theorem c1_counterexample :
    parse_event
        [⟨31, 32, 33, 34, ⟨8192⟩, ⟨0⟩, ⟨0⟩, 35, 36, 37, 38, 39, 1, 40, 0,
          41, 42, 0⟩,
         ⟨31, 32, 33, 34, ⟨8192⟩, ⟨0⟩, ⟨0⟩, 35, 36, 37, 38, 39, 3, 40, 0,
          41, 42, 0⟩]
        (u32le 9 ++ u16le 6 ++ u16le 32 ++ u64le 5 ++ u64le 7 ++ u64le 0) =
      .ok (⟨⟨.Sample, 6, 32⟩,
            .Sample ({ SampleRecord.empty with
              abi_user := some 5,
              regs_user := some [7],
              user_stack := some [] })⟩, []) ∧
    parse_event
        [⟨31, 32, 33, 34, ⟨8192⟩, ⟨0⟩, ⟨0⟩, 35, 36, 37, 38, 39, 1, 40, 0,
          41, 42, 0⟩,
         ⟨31, 32, 33, 34, ⟨8192⟩, ⟨0⟩, ⟨0⟩, 35, 36, 37, 38, 39, 3, 40, 0,
          41, 42, 0⟩]
        (u32le 9 ++ u16le 6 ++ u16le 32 ++ u64le 5 ++ u64le 7 ++ u64le 0) =
      parse_event
        [⟨31, 32, 33, 34, ⟨8192⟩, ⟨0⟩, ⟨0⟩, 35, 36, 37, 38, 39, 1, 40, 0,
          41, 42, 0⟩,
         ⟨31, 32, 33, 34, ⟨8192⟩, ⟨0⟩, ⟨0⟩, 35, 36, 37, 38, 39, 1, 40, 0,
          41, 42, 0⟩]
        (u32le 9 ++ u16le 6 ++ u16le 32 ++ u64le 5 ++ u64le 7 ++ u64le 0) ∧
    popcount (⟨31, 32, 33, 34, ⟨8192⟩, ⟨0⟩, ⟨0⟩, 35, 36, 37, 38, 39, 3, 40,
      0, 41, 42, 0⟩ : EventAttr).sample_regs_user = 2 ∧
    (({ SampleRecord.empty with
        abi_user := some 5,
        regs_user := some [7],
        user_stack := some [] } : SampleRecord).regs_user.getD []).length =
      1 ∧
    (1 : Nat) ≠ 2 := by
  decide

/-- Append distributes over a conditional list. -/
theorem ite_append {α : Type} (c : Prop) [Decidable c] (a b l : List α) :
    ((if c then a else b) ++ l) = if c then a ++ l else b ++ l := by
  split <;> rfl

/-- Length of a conditional singleton. -/
theorem cond_sing_len {α : Type} (b : Bool) (x : α) :
    (cond b [x] ([] : List α)).length = b.toNat := by
  cases b <;> rfl

/-- `HeaderFlags::collect` returns exactly the set flags, filtered out of
the canonical order. -/
theorem collect_eq_filter (f : HeaderFlags) :
    f.collect = canonicalFlagOrder.filter f.hasFlag := by
  simp only [HeaderFlags.collect, canonicalFlagOrder, Bool.cond_eq_ite,
    List.append_assoc, ite_append, List.cons_append, List.singleton_append,
    List.nil_append, List.filter_cons, List.filter_nil, HeaderFlags.hasFlag]

/-- `HeaderFlags::collect` has exactly popcount-many entries. -/
theorem collect_length (f : HeaderFlags) :
    f.collect.length = popcountFlags f := by
  simp only [HeaderFlags.collect, List.length_append, cond_sing_len,
    popcountFlags]

/-- The canonical flag order lists every flag. -/
theorem mem_canonicalFlagOrder (fl : HeaderFlag) : fl ∈ canonicalFlagOrder := by
  cases fl <;> decide

/-- `collect` has no duplicates. -/
theorem collect_nodup (f : HeaderFlags) : f.collect.Nodup := by
  rw [collect_eq_filter]
  exact List.Nodup.filter _ (by decide)

/-- A set flag occurs in `collect`. -/
theorem mem_collect {f : HeaderFlags} {fl : HeaderFlag}
    (h : f.hasFlag fl = true) : fl ∈ f.collect := by
  rw [collect_eq_filter]
  exact List.mem_filter.mpr ⟨mem_canonicalFlagOrder fl, h⟩

/-- Looking up a key in a zip of a duplicate-free key list finds the value
at the key's index. -/
theorem find_zip_eq {α β : Type} [DecidableEq α] :
    ∀ (l : List α) (s : List β) (a : α), l.Nodup → a ∈ l →
      s.length = l.length →
      ((l.zip s).find? (fun c => c.1 == a)).map (fun c => c.2) =
        s[l.indexOf a]? := by
  intro l
  induction l with
  | nil =>
    intro s a _ ha _
    exact absurd ha (by simp)
  | cons x xs ih =>
    intro s a hnd ha hlen
    cases s with
    | nil => simp at hlen
    | cons y ys =>
      by_cases hxa : x = a
      · subst hxa
        simp [List.find?]
      · have hxa' : ((x, y).1 == a) = false := by
          simp [hxa]
        have hax : a ∈ xs := by
          rcases List.mem_cons.mp ha with h1 | h2
          · exact absurd h1.symm hxa
          · exact h2
        have hlen' : ys.length = xs.length := by
          simpa using hlen
        rw [List.zip_cons_cons, List.find?_cons_of_neg _ (by simp [hxa]),
          List.indexOf_cons_ne _ hxa, List.getElem?_cons_succ]
        exact ih ys a (List.Nodup.of_cons hnd) hax hlen'

/-- C4: the feature-section table read at `data.offset + data.size` has
exactly popcount-many entries; the collected flags are exactly the set
flags in the canonical order (tracing_data, build_id, hostname, os_release,
version, arch, nr_cpus, cpu_desc, cpu_id, total_mem, cmd_line, event_desc,
cpu_topology, numa_topology, branch_stack, pmu_mappings, group_desc); and
each named accessor finds the `(offset, size)` pair at the position of its
own flag among the set bits. -/
theorem c4_feature_section_table :
    (∀ f : HeaderFlags,
      f.collect = canonicalFlagOrder.filter f.hasFlag ∧
      f.collect.length = popcountFlags f) ∧
    (∀ (pf : PerfFile) (secs : List PerfFileSection) (rest : List Nat),
      pf.parse_header_sections = .ok (secs, rest) →
      secs.length = popcountFlags pf.header.flags ∧
      pf.sections = .ok (pf.header.flags.collect.zip secs) ∧
      ∀ fl, pf.header.flags.hasFlag fl = true →
        pf.get_section fl =
          .ok (secs[pf.header.flags.collect.indexOf fl]?)) := by
  refine ⟨fun f => ⟨collect_eq_filter f, collect_length f⟩, ?_⟩
  intro pf secs rest h
  have hcnt : countP parse_file_section pf.header.flags.collect.length
      (pf.bytes.drop (pf.header.data.offset + pf.header.data.size)) =
        .ok (secs, rest) := by
    simp only [PerfFile.parse_header_sections] at h
    split at h
    · exact h
    · exact absurd h (by simp)
  have hlen : secs.length = pf.header.flags.collect.length := countP_len hcnt
  have hsec : pf.sections = .ok (pf.header.flags.collect.zip secs) := by
    unfold PerfFile.sections
    rw [h]
    simp [hlen]
  refine ⟨hlen.trans (collect_length _), hsec, ?_⟩
  intro fl hfl
  unfold PerfFile.get_section
  rw [hsec]
  show Except.ok
      (((pf.header.flags.collect.zip secs).find? (fun c => c.1 == fl)).map
        (fun c => c.2)) = _
  rw [find_zip_eq _ _ _ (collect_nodup _) (mem_collect hfl) hlen]

/-- C4 witness: flags `hostname | arch | nr_cpus` (spec scenario 6); three
sections on disk in that canonical order, and the `arch` accessor reads the
second pair. -/
theorem c4_witness :
    ((⟨true, true, false, false, true, false, false, false, false, false,
        false, false, false, false, false, false, false⟩ :
        HeaderFlags).collect =
      canonicalFlagOrder.filter
        (⟨true, true, false, false, true, false, false, false, false, false,
          false, false, false, false, false, false, false⟩ :
          HeaderFlags).hasFlag ∧
     (⟨true, true, false, false, true, false, false, false, false, false,
        false, false, false, false, false, false, false⟩ :
        HeaderFlags).collect.length =
      popcountFlags
        ⟨true, true, false, false, true, false, false, false, false, false,
         false, false, false, false, false, false, false⟩) ∧
    PerfFile.parse_header_sections
        ⟨⟨0, 0, ⟨0, 0⟩, ⟨0, 0⟩, ⟨0, 0⟩,
          ⟨true, true, false, false, true, false, false, false, false, false,
           false, false, false, false, false, false, false⟩⟩, [],
         (u64le 1 ++ u64le 1 ++ u64le 2 ++ u64le 1 ++ u64le 3 ++ u64le 1)⟩ =
      .ok ([⟨1, 1⟩, ⟨2, 1⟩, ⟨3, 1⟩], []) ∧
    PerfFile.sections
        ⟨⟨0, 0, ⟨0, 0⟩, ⟨0, 0⟩, ⟨0, 0⟩,
          ⟨true, true, false, false, true, false, false, false, false, false,
           false, false, false, false, false, false, false⟩⟩, [],
         (u64le 1 ++ u64le 1 ++ u64le 2 ++ u64le 1 ++ u64le 3 ++ u64le 1)⟩ =
      .ok [(.Hostname, ⟨1, 1⟩), (.Arch, ⟨2, 1⟩), (.NrCpus, ⟨3, 1⟩)] ∧
    PerfFile.get_section
        ⟨⟨0, 0, ⟨0, 0⟩, ⟨0, 0⟩, ⟨0, 0⟩,
          ⟨true, true, false, false, true, false, false, false, false, false,
           false, false, false, false, false, false, false⟩⟩, [],
         (u64le 1 ++ u64le 1 ++ u64le 2 ++ u64le 1 ++ u64le 3 ++ u64le 1)⟩ .Arch =
      .ok (some ⟨2, 1⟩) :=
  ⟨c4_feature_section_table.1
     ⟨true, true, false, false, true, false, false, false, false, false,
      false, false, false, false, false, false, false⟩,
   by decide,
   (c4_feature_section_table.2 _ [⟨1, 1⟩, ⟨2, 1⟩, ⟨3, 1⟩] [] (by decide)).2.1,
   (c4_feature_section_table.2 _ [⟨1, 1⟩, ⟨2, 1⟩, ⟨3, 1⟩] []
     (by decide)).2.2 .Arch (by decide)⟩

/-- `pure` consumes no bytes. -/
theorem ExactP_pure {α : Type} (a : α) : ExactP (pure a : P α) 0 := by
  intro s
  rw [if_pos (Nat.zero_le _)]
  exact ⟨a, by rw [P.pure_def, List.drop_zero]⟩

/-- `le_u8` consumes one byte. -/
theorem ExactP_le_u8 : ExactP le_u8 1 := by
  intro s
  cases s with
  | nil => rw [if_neg (by simp)]; rfl
  | cons b rest =>
    rw [if_pos (by simp)]
    exact ⟨b, rfl⟩

/-- `take!(n)` consumes `n` bytes. -/
theorem ExactP_takeN (n : Nat) : ExactP (takeN n) n := by
  intro s
  by_cases h : n ≤ s.length
  · rw [if_pos h]
    exact ⟨s.take n, by unfold takeN; rw [if_pos h]⟩
  · rw [if_neg h]
    unfold takeN
    rw [if_neg h]

/-- Byte counts add across `bind`. -/
theorem ExactP_bind {α β : Type} {p : P α} {f : α → P β} {k m : Nat}
    (hp : ExactP p k) (hf : ∀ a, ExactP (f a) m) : ExactP (p >>= f) (k + m) := by
  intro s
  by_cases hks : k ≤ s.length
  · have hps := hp s
    rw [if_pos hks] at hps
    obtain ⟨v, hv⟩ := hps
    by_cases hms : m ≤ s.length - k
    · have hkm : k + m ≤ s.length := by omega
      rw [if_pos hkm]
      have hfd := hf v (s.drop k)
      rw [if_pos (by rw [List.length_drop]; exact hms)] at hfd
      obtain ⟨w, hw⟩ := hfd
      refine ⟨w, ?_⟩
      rw [P.bind_ok_fwd hv, hw]
      simp [List.drop_drop, Nat.add_comm]
    · have hkm : ¬ (k + m ≤ s.length) := by omega
      rw [if_neg hkm]
      have hfd := hf v (s.drop k)
      rw [if_neg (by rw [List.length_drop]; omega)] at hfd
      rw [P.bind_ok_fwd hv]
      exact hfd
  · have hkm : ¬ (k + m ≤ s.length) := by omega
    rw [if_neg hkm]
    have hps := hp s
    rw [if_neg hks] at hps
    exact P.bind_error hps

/-- `le_u16` consumes two bytes. -/
theorem ExactP_le_u16 : ExactP le_u16 2 := by
  unfold le_u16
  exact ExactP_bind ExactP_le_u8 (fun _ =>
    ExactP_bind ExactP_le_u8 (fun _ => ExactP_pure _))

/-- `le_u32` consumes four bytes. -/
theorem ExactP_le_u32 : ExactP le_u32 4 := by
  unfold le_u32
  exact ExactP_bind ExactP_le_u16 (fun _ =>
    ExactP_bind ExactP_le_u16 (fun _ => ExactP_pure _))

/-- `le_u64` consumes eight bytes. -/
theorem ExactP_le_u64 : ExactP le_u64 8 := by
  unfold le_u64
  exact ExactP_bind ExactP_le_u32 (fun _ =>
    ExactP_bind ExactP_le_u32 (fun _ => ExactP_pure _))

/-- `parse_file_section` consumes sixteen bytes. -/
theorem ExactP_parse_file_section : ExactP parse_file_section 16 := by
  unfold parse_file_section
  exact ExactP_bind ExactP_le_u64 (fun _ =>
    ExactP_bind ExactP_le_u64 (fun _ => ExactP_pure _))

/-- The post-magic header remainder consumes 96 bytes, and in particular
fails with `Incomplete` on any shorter input. -/
theorem ExactP_parse_header_rest : ExactP parse_header_rest 96 := by
  unfold parse_header_rest
  exact ExactP_bind ExactP_le_u64 (fun _ =>
    ExactP_bind ExactP_le_u64 (fun _ =>
    ExactP_bind ExactP_parse_file_section (fun _ =>
    ExactP_bind ExactP_parse_file_section (fun _ =>
    ExactP_bind ExactP_parse_file_section (fun _ =>
    ExactP_bind ExactP_le_u8 (fun _ =>
    ExactP_bind ExactP_le_u8 (fun _ =>
    ExactP_bind ExactP_le_u8 (fun _ =>
    ExactP_bind (ExactP_takeN 29) (fun _ => ExactP_pure _)))))))))

/-- C10 (amended): a buffer whose first 8 bytes differ from `"PERFILE2"`
makes `parse_header` fail with a parse `Error` (the BadMagic case), and a
buffer with the right magic but shorter than the 104-byte fixed header
prefix makes it fail with `Incomplete` (the Truncated case) — but in BOTH
cases `PerfFile::new` panics (`panic!` on any header-parse failure), so
construction aborts the program instead of returning a recoverable
error. -/
theorem c10_construction_aborts (bytes : List Nat) :
    (8 ≤ bytes.length → bytes.take 8 ≠ perfMagic →
      parse_header bytes = .error .error ∧
      PerfFile.new bytes = .error .abort) ∧
    (bytes.take 8 = perfMagic → bytes.length < 104 →
      parse_header bytes = .error .incomplete ∧
      PerfFile.new bytes = .error .abort) := by
  constructor
  · intro hlen hmag
    have htag : tagP perfMagic bytes = .error .error := by
      unfold tagP
      have hl8 : perfMagic.length = 8 := rfl
      rw [hl8, if_pos hlen, if_neg hmag]
    have hph : parse_header bytes = .error .error := by
      unfold parse_header
      exact P.bind_error htag
    refine ⟨hph, ?_⟩
    unfold PerfFile.new
    rw [hph]
  · intro hmag hshort
    have hlen8 : 8 ≤ bytes.length := by
      have h8 : (bytes.take 8).length = 8 := by rw [hmag]; rfl
      rw [List.length_take] at h8
      omega
    have htag : tagP perfMagic bytes = .ok ((), bytes.drop 8) := by
      unfold tagP
      have hl8 : perfMagic.length = 8 := rfl
      rw [hl8, if_pos hlen8, if_pos hmag]
    have hrest := ExactP_parse_header_rest (bytes.drop 8)
    rw [if_neg (by rw [List.length_drop]; omega)] at hrest
    have hph : parse_header bytes = .error .incomplete := by
      unfold parse_header
      rw [P.bind_ok_fwd htag]
      exact hrest
    refine ⟨hph, ?_⟩
    unfold PerfFile.new
    rw [hph]

set_option maxRecDepth 4000 in
/-- C10 witness: the theorem applied to a 138-byte bad-magic buffer and to
the 8-byte buffer holding only the magic. -/
theorem c10_witness :
    (parse_header ([80, 81, 82, 83, 84, 85, 86, 87] ++ List.replicate 130 0) =
        .error .error ∧
      PerfFile.new ([80, 81, 82, 83, 84, 85, 86, 87] ++ List.replicate 130 0) =
        .error .abort) ∧
    (parse_header perfMagic = .error .incomplete ∧
      PerfFile.new perfMagic = .error .abort) :=
  ⟨(c10_construction_aborts
      ([80, 81, 82, 83, 84, 85, 86, 87] ++ List.replicate 130 0)).1
      (by decide) (by decide),
   (c10_construction_aborts perfMagic).2 (by decide) (by decide)⟩

set_option maxRecDepth 4000 in
/-- C10 counterexample: construction ABORTS (models the source's `panic!`)
on a bad-magic buffer and on a truncated buffer — `PerfFile::new` returns
`PerfFile`, not a `Result`, so there is no recoverable `BadMagic` or
`Truncated` error at the facade level, contradicting the claim. -/
theorem c10_counterexample :
    PerfFile.new ([80, 81, 82, 83, 84, 85, 86, 87] ++ List.replicate 130 0) =
      .error .abort ∧
    PerfFile.new perfMagic = .error .abort := by
  decide
